import Mathlib

/-!
Verification of the ocular-tracking signal-processing pipeline of the
UNCP-Hackathon repository (frontend eye-test screen and face-landmark
helpers).  Numeric code is embedded over the rationals where it is
sqrt-free, and over the reals where the source calls Math.sqrt.  A
JavaScript runtime TypeError (property access on undefined) is modelled
as the value none of an Option-returning function.
-/

/-- Constant THRESHOLD_OFFSET from eye-test-screen.tsx. -/
def THRESHOLD_OFFSET : ℚ := 1/10

/-- Constant DEPRESSION_MULTIPLIER from eye-test-screen.tsx. -/
def DEPRESSION_MULTIPLIER : ℚ := 12/10

/-- Threshold computed by the setTimeout body of handleCalibrate
(eye-test-screen.tsx): the mean of the calibration buffer when it is
non-empty, otherwise the fallback 0.25, plus THRESHOLD_OFFSET. -/
def handleCalibrateThreshold (data : List ℚ) : ℚ :=
  (if 0 < data.length then data.sum / data.length else 1/4) + THRESHOLD_OFFSET

/-- Helper variance from runExam (eye-test-screen.tsx): sample variance
with an n-1 divisor, 0 for fewer than two points. -/
def variance (arr : List ℚ) : ℚ :=
  if arr.length < 2 then 0
  else
    let mean := arr.sum / (arr.length : ℚ)
    (arr.map fun v => (v - mean) ^ 2).sum / ((arr.length : ℚ) - 1)

/-- JavaScript Math.round(q * 1000) / 1000, three-decimal rounding. -/
def round3 (q : ℚ) : ℚ := (round (q * 1000) : ℤ) / 1000

/-- JavaScript Math.round(q * 10) / 10, one-decimal rounding. -/
def round1 (q : ℚ) : ℚ := (round (q * 10) : ℤ) / 10

/-- Pupil-variability metric from runExam: variance of the iris-width
history times 1000, rounded to three decimals, when at least two
samples exist; 0 for exactly one sample; none (null) for no samples. -/
def pupilVariabilityOf (irisHist : List ℚ) : Option ℚ :=
  if 2 ≤ irisHist.length then some (round3 (variance irisHist * 1000))
  else if 0 < irisHist.length then some 0
  else none

/-- Prosaccade-latency aggregation from runExam: one-decimal-rounded
mean of the latched per-trial latencies, none (null) when no trial
latched a latency. -/
def prosaccadeLatencyOf (latencies : List ℚ) : Option ℚ :=
  if 0 < latencies.length then some (round1 (latencies.sum / latencies.length))
  else none

/-- Average saccadic peak from runExam: peaks.reduce((a,b)=>a+b,0) /
peaks.length || 0.  On an empty list the JavaScript division yields NaN
and the || 0 guard turns it into 0. -/
def avgPeakOf (peaks : List ℚ) : ℚ :=
  if peaks.length = 0 then 0 else peaks.sum / peaks.length

/-- Classification test from runExam: avgPeak < threshold *
DEPRESSION_MULTIPLIER, or the force-fail flag. -/
def isDepressed (avgPeak threshold : ℚ) (forceFail : Bool) : Bool :=
  decide (avgPeak < threshold * DEPRESSION_MULTIPLIER) || forceFail

/-- Result header string set by runExam. -/
def classificationOf (avgPeak threshold : ℚ) (forceFail : Bool) : String :=
  if isDepressed avgPeak threshold forceFail then "ABNORMAL" else "NORMAL"

/-- Normalized landmark point as delivered by the face-landmark
detector (faceLandmarker.ts); the optional z coordinate is unused. -/
structure Landmark where
  x : ℚ
  y : ℚ
deriving DecidableEq

/-- Gaze vector returned by getGazePositionFromLandmarks. -/
structure GazeVec where
  x : ℚ
  y : ℚ
deriving DecidableEq

/-- Landmark index LEFT_EYE_INNER from faceLandmarker.ts. -/
def LEFT_EYE_INNER : ℕ := 33

/-- Landmark index LEFT_EYE_OUTER from faceLandmarker.ts. -/
def LEFT_EYE_OUTER : ℕ := 133

/-- Landmark index LEFT_EYE_TOP from faceLandmarker.ts. -/
def LEFT_EYE_TOP : ℕ := 159

/-- Landmark index LEFT_EYE_BOTTOM from faceLandmarker.ts. -/
def LEFT_EYE_BOTTOM : ℕ := 145

/-- Landmark index LEFT_IRIS_TOP from faceLandmarker.ts. -/
def LEFT_IRIS_TOP : ℕ := 468

/-- Landmark index LEFT_IRIS_BOTTOM from faceLandmarker.ts. -/
def LEFT_IRIS_BOTTOM : ℕ := 471

/-- Landmark index LEFT_IRIS_LEFT from faceLandmarker.ts. -/
def LEFT_IRIS_LEFT : ℕ := 469

/-- Landmark index LEFT_IRIS_RIGHT from faceLandmarker.ts. -/
def LEFT_IRIS_RIGHT : ℕ := 470

/-- Eye width from faceLandmarker.ts line 70: Math.abs(outer - inner)
|| 0.01.  The JavaScript || replaces only a falsy (exactly zero)
width by 0.01; smaller nonzero widths are kept. -/
def eyeWidthOf (innerX outerX : ℚ) : ℚ :=
  if |outerX - innerX| = 0 then 1/100 else |outerX - innerX|

/-- Iris-x plausibility guard from faceLandmarker.ts lines 81-84: every
iris boundary point must have x strictly between 0 and 1.  Only the x
coordinates are tested by the source. -/
def irisXInRange (it ib il ir : Landmark) : Prop :=
  (0 < it.x ∧ it.x < 1) ∧ (0 < ib.x ∧ ib.x < 1) ∧
    (0 < il.x ∧ il.x < 1) ∧ (0 < ir.x ∧ ir.x < 1)

instance (it ib il ir : Landmark) : Decidable (irisXInRange it ib il ir) := by
  unfold irisXInRange; infer_instance

/-- Embedding of getGazePositionFromLandmarks (faceLandmarker.ts lines
59-99).  Result none models the JavaScript TypeError raised when the
function dereferences an undefined eye-top or eye-bottom landmark
(indices 159 and 145), which happens exactly when the list length is
between 134 and 159: the length guard only checks length < 134. -/
def getGazePositionFromLandmarks (landmarks : List Landmark) : Option GazeVec :=
  if landmarks.length < 134 then some ⟨0, 0⟩
  else
    match landmarks[LEFT_EYE_TOP]?, landmarks[LEFT_EYE_BOTTOM]? with
    | some eyeTop, some eyeBottom =>
      let eyeInner := (landmarks[LEFT_EYE_INNER]?).getD ⟨0, 0⟩
      let eyeOuter := (landmarks[LEFT_EYE_OUTER]?).getD ⟨0, 0⟩
      let eyeWidth := eyeWidthOf eyeInner.x eyeOuter.x
      let eyeCenterX := (eyeInner.x + eyeOuter.x) / 2
      let eyeCenterY := (eyeTop.y + eyeBottom.y) / 2
      if 473 < landmarks.length then
        let it := (landmarks[LEFT_IRIS_TOP]?).getD ⟨0, 0⟩
        let ib := (landmarks[LEFT_IRIS_BOTTOM]?).getD ⟨0, 0⟩
        let il := (landmarks[LEFT_IRIS_LEFT]?).getD ⟨0, 0⟩
        let ir := (landmarks[LEFT_IRIS_RIGHT]?).getD ⟨0, 0⟩
        if irisXInRange it ib il ir then
          let irisX := (it.x + ib.x + il.x + ir.x) / 4
          let irisY := (it.y + ib.y + il.y + ir.y) / 4
          some ⟨(irisX - eyeCenterX) / eyeWidth, (irisY - eyeCenterY) / eyeWidth⟩
        else some ⟨0, 0⟩
      else some ⟨0, 0⟩
    | _, _ => none

/-- Constant IRIS_SCALE from calculateGazeDeviation. -/
def IRIS_SCALE : ℝ := 8

/-- Embedding of calculateGazeDeviation (faceLandmarker.ts lines
115-135): Euclidean distance between the IRIS_SCALE-amplified gaze
vector and the mirror-corrected centered dot direction. -/
noncomputable def calculateGazeDeviation (gaze dot : ℝ × ℝ) (containerWidth containerHeight : ℝ) : ℝ :=
  let dotDirX := -((dot.1 / containerWidth) - 0.5)
  let dotDirY := (dot.2 / containerHeight) - 0.5
  let irisScaledX := gaze.1 * IRIS_SCALE
  let irisScaledY := gaze.2 * IRIS_SCALE
  let dx := irisScaledX - dotDirX
  let dy := irisScaledY - dotDirY
  Real.sqrt (dx * dx + dy * dy)

/-- Amplified gaze vector as the specification describes it, as a point
of the Euclidean plane (spec section 4.2: fixed amplification 8.0
applied componentwise). -/
noncomputable def specAmplifiedGaze (gaze : ℝ × ℝ) : EuclideanSpace ℝ (Fin 2) :=
  ![gaze.1 * 8, gaze.2 * 8]

/-- Mirror-corrected centered dot direction as the specification
describes it (spec section 4.2: dirX negated for mirror correction). -/
noncomputable def specCorrectedDir (dot : ℝ × ℝ) (w h : ℝ) : EuclideanSpace ℝ (Fin 2) :=
  ![-(dot.1 / w - 0.5), dot.2 / h - 0.5]

/-- Outcome of the external landmarker.detectForVideo call inside
detectFace: either it raises, or it returns a list of faces, each a
landmark list.  A missing faceLandmarks field behaves like the empty
list. -/
inductive DetectorOutcome where
  | throws : DetectorOutcome
  | ok : List (List Landmark) → DetectorOutcome
deriving DecidableEq

/-- Result record of detectFace (faceLandmarker.ts). -/
structure FaceLandmarkerResult where
  gazeDeviation : ℝ
  gazePosition : GazeVec
  timestamp : ℚ

/-- Embedding of detectFace (faceLandmarker.ts lines 137-178).  The
readiness, dimension and container guards return null; the try block
covers the detector call and the gaze computation, so a detector throw
or a TypeError inside getGazePositionFromLandmarks is caught and null
is returned. -/
noncomputable def detectFace (readyState videoWidth videoHeight : ℕ)
    (dotPosition : Option (ℚ × ℚ)) (containerWidth containerHeight : ℚ)
    (outcome : DetectorOutcome) (timestamp : ℚ) : Option FaceLandmarkerResult :=
  if readyState < 2 ∨ dotPosition = none then none
  else if videoWidth = 0 ∨ videoHeight = 0 then none
  else if containerWidth ≤ 0 ∨ containerHeight ≤ 0 then none
  else
    match outcome with
    | .throws => none
    | .ok faces =>
      match faces with
      | [] => none
      | face :: _ =>
        match dotPosition with
        | none => none
        | some dot =>
          match getGazePositionFromLandmarks face with
          | none => none
          | some gp =>
            some ⟨calculateGazeDeviation ((gp.x : ℝ), (gp.y : ℝ))
                    ((dot.1 : ℝ), (dot.2 : ℝ)) (containerWidth : ℝ) (containerHeight : ℝ),
                  gp, timestamp⟩

/-- Real-valued copy of the runExam variance helper, used by the
fixation-stability computation which feeds it into Math.sqrt. -/
noncomputable def varianceR (arr : List ℝ) : ℝ :=
  if arr.length < 2 then 0
  else
    let mean := arr.sum / (arr.length : ℝ)
    (arr.map fun v => (v - mean) ^ 2).sum / ((arr.length : ℝ) - 1)

/-- JavaScript Math.round(x * 1000) / 1000 over the reals. -/
noncomputable def round3R (x : ℝ) : ℝ := (round (x * 1000) : ℤ) / 1000

/-- Constant STABILITY_STD_SCALE from eye-test-screen.tsx. -/
def STABILITY_STD_SCALE : ℝ := 8

/-- Stability value stored by runExam for a given total standard
deviation s = stdX + stdY: the clamped score max(0, 1 - s * 8)
rounded to three decimals. -/
noncomputable def stabilityScore (s : ℝ) : ℝ :=
  round3R (max 0 (1 - s * STABILITY_STD_SCALE))

/-- Fixation-stability metric from runExam (eye-test-screen.tsx lines
486-498): with at least five buffered gaze samples, the rounded
clamped score of stdX + stdY; with one to four samples, 0; with no
samples, none (null). -/
noncomputable def fixationStabilityOf (fix : List (ℝ × ℝ)) : Option ℝ :=
  if 5 ≤ fix.length then
    let stdX := Real.sqrt (varianceR (fix.map Prod.fst))
    let stdY := Real.sqrt (varianceR (fix.map Prod.snd))
    some (stabilityScore (stdX + stdY))
  else if 0 < fix.length then some 0
  else none

/-- Constant LATENCY_SHIFT_THRESHOLD from eye-test-screen.tsx. -/
def LATENCY_SHIFT_THRESHOLD : ℚ := 8/1000

/-- Constant LATENCY_MIN_MS from eye-test-screen.tsx. -/
def LATENCY_MIN_MS : ℚ := 80

/-- One detection tick during the saccade phase: averaged iris x and
the tick time (performance.now). -/
structure GazeTick where
  x : ℚ
  t : ℚ
deriving DecidableEq

/-- Latency latch from onResults (eye-test-screen.tsx lines 367-377):
a tick sets the trial latency only while it is still null, the jump
time is positive, at least LATENCY_MIN_MS has elapsed since the jump,
the pre-jump baseline exists, and the absolute iris shift from the
baseline exceeds LATENCY_SHIFT_THRESHOLD. -/
def latencyStep (jumpTime : ℚ) (preJumpBaseline : Option ℚ)
    (latency : Option ℚ) (tick : GazeTick) : Option ℚ :=
  match latency, preJumpBaseline with
  | none, some b =>
    if 0 < jumpTime ∧ LATENCY_MIN_MS ≤ tick.t - jumpTime ∧
        LATENCY_SHIFT_THRESHOLD < |tick.x - b| then
      some (tick.t - jumpTime)
    else none
  | st, _ => st

/-- One saccade trial: dot-jump time, pre-jump baseline (null when no
history frames existed), and the detection ticks of the trial in time
order. -/
structure SaccadeTrial where
  jumpTime : ℚ
  preJumpBaseline : Option ℚ
  ticks : List GazeTick
deriving DecidableEq

/-- Latency latched by a trial: the latencyStep fold over its ticks. -/
def trialLatency (trial : SaccadeTrial) : Option ℚ :=
  trial.ticks.foldl (latencyStep trial.jumpTime trial.preJumpBaseline) none

/-- Latencies pushed into prosaccadeLatenciesRef: trials whose latch
stayed null contribute nothing. -/
def latchedLatencies (trials : List SaccadeTrial) : List ℚ :=
  trials.filterMap trialLatency

/-- JavaScript Math.max(0, Math.min(1, q)). -/
def clamp01 (q : ℚ) : ℚ := max 0 (min 1 q)

/-- Directional components of consecutive valid trial pairs from the
saccade-accuracy block of runExam (eye-test-screen.tsx lines 659-672).
The argument k is the index of the first element of the current pair;
entry none models the NaN stored for a trial without settled samples,
and pairs containing it are skipped. -/
def validPairsFrom : ℕ → List (Option ℚ) → List ℚ
  | _, [] => []
  | _, [_] => []
  | k, prev :: curr :: rest =>
    let tail := validPairsFrom (k + 1) (curr :: rest)
    match prev, curr with
    | some p, some c =>
      let delta := c - p
      let expectedSign : ℚ := if (k + 1) % 2 = 1 then -1 else 1
      delta * expectedSign :: tail
    | _, _ => tail

/-- Saccade-accuracy metric from runExam (eye-test-screen.tsx lines
659-683): median-normalized clipped directional scores averaged and
rounded to three decimals; none (null) when no valid pair exists. -/
def saccadeAccuracyOf (rawGazeX : List (Option ℚ)) : Option ℚ :=
  let validPairs := validPairsFrom 0 rawGazeX
  if 0 < validPairs.length then
    let absVals := (validPairs.map fun v => |v|).mergeSort (fun a b => a ≤ b)
    let m := absVals.getD (absVals.length / 2) 0
    let medianAbs := if m = 0 then 1/1000 else m
    let scores := validPairs.map fun v => clamp01 (v / medianAbs)
    some (round3 (scores.sum / scores.length))
  else none

/-- One smooth-pursuit sample recorded by onResults. -/
structure PursuitSample where
  gazeX : ℚ
  targetX : ℚ
  t : ℚ
deriving DecidableEq

/-- Per-pair pursuit gains from runExam (eye-test-screen.tsx lines
590-607): finite-difference velocities, mirror-flipped unit
conversion, noise floor of 0.3 times the iris range, gain clamped to
the interval from 0 to 2. -/
def pursuitGains (irisRange irisPerBoxFrac : ℚ) : List PursuitSample → List ℚ
  | [] => []
  | [_] => []
  | a :: b :: rest =>
    let tail := pursuitGains irisRange irisPerBoxFrac (b :: rest)
    let dt := (b.t - a.t) / 1000
    if dt ≤ 0 then tail
    else
      let targetBoxVel := (b.targetX - a.targetX) / dt
      let targetIrisVel := -targetBoxVel * irisPerBoxFrac
      let eyeVel := (b.gazeX - a.gazeX) / dt
      let velThreshold := irisRange * (3/10)
      if velThreshold < |targetIrisVel| then
        max 0 (min 2 (eyeVel / targetIrisVel)) :: tail
      else tail

/-- Smooth-pursuit gain from runExam (eye-test-screen.tsx lines
576-615): iris range from the valid settled saccade readings (with
defaults 0 and 0.02 when none exist, floored at 0.005), mean of valid
per-pair gains rounded to three decimals, none (null) when no pair
cleared the noise floor. -/
def smoothPursuitGainOf (rawGazeX : List (Option ℚ)) (samples : List PursuitSample) : Option ℚ :=
  let validGazeReadings := rawGazeX.filterMap id
  let irisMin := match validGazeReadings with
    | [] => 0
    | v :: vs => vs.foldl min v
  let irisMax := match validGazeReadings with
    | [] => 1/50
    | v :: vs => vs.foldl max v
  let irisRange := max (irisMax - irisMin) (5/1000)
  let irisPerBoxFrac := irisRange / (8/10)
  let gains := pursuitGains irisRange irisPerBoxFrac samples
  if 0 < gains.length then some (round3 (gains.sum / gains.length))
  else none

/-- Landmark list of length 474 whose eye landmarks coincide and whose
iris boundary points have x = 1/4 inside (0,1) but y = 5 far outside
the unit range.  Used to exhibit that only iris x coordinates are
validated. -/
def badIrisList : List Landmark :=
  List.replicate 468 ⟨1/2, 1/2⟩ ++
    [⟨1/4, 5⟩, ⟨1/4, 5⟩, ⟨1/4, 5⟩, ⟨1/4, 5⟩, ⟨1/2, 1/2⟩, ⟨1/2, 1/2⟩]

/-- Five-sample fixation buffer with stdX = 1/16000 and stdY = 0, whose
stability score 1 - 1/2000 is changed by the three-decimal rounding. -/
noncomputable def fixCexList : List (ℝ × ℝ) :=
  [(1/2 + 1/16000, 0), (1/2 + 1/16000, 0), (1/2 - 1/16000, 0), (1/2 - 1/16000, 0), (1/2, 0)]

set_option maxRecDepth 4000

/-- Sample variance over the rationals is non-negative. -/
theorem variance_nonneg (arr : List ℚ) : 0 ≤ variance arr := by
  unfold variance
  split
  · exact le_refl 0
  · next h =>
    dsimp only
    apply div_nonneg
    · apply List.sum_nonneg
      intro x hx
      simp only [List.mem_map] at hx
      obtain ⟨v, _, rfl⟩ := hx
      positivity
    · have h2 : 2 ≤ arr.length := by omega
      have : (2:ℚ) ≤ (arr.length : ℚ) := by exact_mod_cast h2
      linarith

/-- Three-decimal rounding preserves non-negativity over the rationals. -/
theorem round3_nonneg (q : ℚ) (hq : 0 ≤ q) : 0 ≤ round3 q := by
  unfold round3
  apply div_nonneg _ (by norm_num)
  have : (0:ℤ) ≤ round (q * 1000) := by
    rw [round_eq]
    apply Int.floor_nonneg.2
    linarith

  exact_mod_cast this

/-- Rounding to the nearest integer is monotone over the reals. -/
theorem round_monotone {x y : ℝ} (hxy : x ≤ y) : round x ≤ round y := by
  rw [round_eq, round_eq]
  exact Int.floor_mono (by linarith)

/-- Three-decimal rounding is monotone over the reals. -/
theorem round3R_monotone (x y : ℝ) (hxy : x ≤ y) : round3R x ≤ round3R y := by
  unfold round3R
  have h : round (x * 1000) ≤ round (y * 1000) := round_monotone (by linarith)
  have h2 : ((round (x * 1000) : ℤ) : ℝ) ≤ ((round (y * 1000) : ℤ) : ℝ) := by exact_mod_cast h
  linarith

/-- Three-decimal rounding preserves non-negativity over the reals. -/
theorem round3R_nonneg (x : ℝ) (hx : 0 ≤ x) : 0 ≤ round3R x := by
  unfold round3R
  apply div_nonneg _ (by norm_num)
  have : (0:ℤ) ≤ round (x * 1000) := by
    rw [round_eq]
    apply Int.floor_nonneg.2
    linarith
  exact_mod_cast this

/-- The real number 1000 rounds to the integer 1000. -/
theorem round1000_eq : round ((1000:ℝ)) = 1000 := by
  norm_num [round_eq]

/-- The stored fixation-stability value lies between 0 and 1 for any
non-negative total standard deviation. -/
theorem stabilityScore_bounds (s : ℝ) (hs : 0 ≤ s) :
    0 ≤ stabilityScore s ∧ stabilityScore s ≤ 1 := by
  constructor
  · exact round3R_nonneg _ (le_max_left _ _)
  · unfold stabilityScore round3R
    have h : round (max 0 (1 - s * STABILITY_STD_SCALE) * 1000) ≤ round ((1000:ℝ)) := by
      apply round_monotone
      have hle : max 0 (1 - s * STABILITY_STD_SCALE) ≤ 1 := by
        apply max_le (by norm_num)
        rw [STABILITY_STD_SCALE]
        nlinarith
      nlinarith [le_max_left (0:ℝ) (1 - s * STABILITY_STD_SCALE)]
    rw [round1000_eq] at h
    have h2 : ((round (max 0 (1 - s * STABILITY_STD_SCALE) * 1000) : ℤ) : ℝ) ≤ 1000 := by
      exact_mod_cast h
    linarith

/-- The stored fixation-stability value never increases when the total
standard deviation grows. -/
theorem stabilityScore_antitone (s1 s2 : ℝ) (h : s1 ≤ s2) :
    stabilityScore s2 ≤ stabilityScore s1 := by
  unfold stabilityScore
  apply round3R_monotone
  apply max_le_max le_rfl
  rw [STABILITY_STD_SCALE]
  nlinarith

/-- A zero total standard deviation is stored as a perfect stability of 1. -/
theorem stabilityScore_zero : stabilityScore 0 = 1 := by
  unfold stabilityScore round3R
  norm_num [round1000_eq]

/-- The variance helper vanishes on constant sample lists. -/
theorem varianceR_replicate (n : ℕ) (c : ℝ) : varianceR (List.replicate n c) = 0 := by
  unfold varianceR
  split
  · rfl
  · next hlt =>
    dsimp only
    rw [List.length_replicate, List.sum_replicate, nsmul_eq_mul] at *
    have hn : (n:ℝ) ≠ 0 := by
      have : 2 ≤ n := by simpa using Nat.le_of_not_lt (by simpa using hlt)
      positivity
    rw [List.map_replicate, mul_div_cancel_left₀ _ hn]
    simp

/-- The fixation-stability metric of a constant buffer of at least five
samples is exactly 1. -/
theorem fixationStability_replicate (n : ℕ) (c : ℝ × ℝ) (hn : 5 ≤ n) :
    fixationStabilityOf (List.replicate n c) = some 1 := by
  rw [fixationStabilityOf, if_pos (by simpa using hn)]
  rw [List.map_replicate, List.map_replicate, varianceR_replicate, varianceR_replicate]
  rw [Real.sqrt_zero]
  norm_num [stabilityScore_zero]

/-- Reduction of the gaze extractor once the eye-top and eye-bottom
landmarks are known to be present. -/
theorem getGaze_reduce (l : List Landmark) (et eb : Landmark)
    (h134 : ¬ l.length < 134)
    (h159 : l[LEFT_EYE_TOP]? = some et) (h145 : l[LEFT_EYE_BOTTOM]? = some eb) :
    getGazePositionFromLandmarks l =
      (let eyeInner := (l[LEFT_EYE_INNER]?).getD ⟨0, 0⟩
       let eyeOuter := (l[LEFT_EYE_OUTER]?).getD ⟨0, 0⟩
       let eyeWidth := eyeWidthOf eyeInner.x eyeOuter.x
       let eyeCenterX := (eyeInner.x + eyeOuter.x) / 2
       let eyeCenterY := (et.y + eb.y) / 2
       if 473 < l.length then
         let it := (l[LEFT_IRIS_TOP]?).getD ⟨0, 0⟩
         let ib := (l[LEFT_IRIS_BOTTOM]?).getD ⟨0, 0⟩
         let il := (l[LEFT_IRIS_LEFT]?).getD ⟨0, 0⟩
         let ir := (l[LEFT_IRIS_RIGHT]?).getD ⟨0, 0⟩
         if irisXInRange it ib il ir then
           let irisX := (it.x + ib.x + il.x + ir.x) / 4
           let irisY := (it.y + ib.y + il.y + ir.y) / 4
           some ⟨(irisX - eyeCenterX) / eyeWidth, (irisY - eyeCenterY) / eyeWidth⟩
         else some ⟨0, 0⟩
       else some ⟨0, 0⟩) := by
  rw [getGazePositionFromLandmarks, if_neg h134, h159, h145]

/-- A latched latency is never overwritten by later detection ticks. -/
theorem latencyStep_keeps (jt : ℚ) (base : Option ℚ) (l : ℚ) (ticks : List GazeTick) :
    ticks.foldl (latencyStep jt base) (some l) = some l := by
  induction ticks with
  | nil => rfl
  | cons a as ih =>
    rw [List.foldl_cons]
    have hstep : latencyStep jt base (some l) a = some l := by
      cases base <;> rfl
    rw [hstep, ih]

/-- With a positive jump time and a present baseline, the latency fold
latches the elapsed time of the first qualifying tick and nothing
else. -/
theorem trialLatency_eq_find (jt b : ℚ) (ticks : List GazeTick) (hjt : 0 < jt) :
    List.foldl (latencyStep jt (some b)) none ticks =
      (ticks.find? fun tk => decide (LATENCY_MIN_MS ≤ tk.t - jt) &&
        decide (LATENCY_SHIFT_THRESHOLD < |tk.x - b|)).map (fun tk => tk.t - jt) := by
  induction ticks with
  | nil => rfl
  | cons a as ih =>
    rw [List.foldl_cons]
    by_cases h : LATENCY_MIN_MS ≤ a.t - jt ∧ LATENCY_SHIFT_THRESHOLD < |a.x - b|
    · have hstep : latencyStep jt (some b) none a = some (a.t - jt) := by
        rw [latencyStep]
        exact if_pos ⟨hjt, h.1, h.2⟩
      rw [hstep, latencyStep_keeps]
      rw [List.find?_cons_of_pos _ (by simpa using h)]
      rfl
    · have hstep : latencyStep jt (some b) none a = none := by
        rw [latencyStep]
        apply if_neg
        intro hc
        exact h ⟨hc.2.1, hc.2.2⟩
      rw [hstep, ih]
      rw [List.find?_cons_of_neg _ (by simpa using h)]

/-- Claim C1 (amended): a completed calibration window with a non-empty
sample buffer yields mean(buffer) + 0.1 (so a constant stream of value
v yields exactly v + 0.1); an empty buffer yields 0.25 + 0.1 = 0.35,
because the source substitutes the 0.25 default for the mean and still
adds the offset. -/
theorem calibration_threshold_spec (data : List ℚ) (v : ℚ) (n : ℕ)
    (hdata : data ≠ []) (hn : 0 < n) :
    handleCalibrateThreshold data = data.sum / data.length + 1/10 ∧
    handleCalibrateThreshold (List.replicate n v) = v + 1/10 ∧
    handleCalibrateThreshold [] = 7/20 := by
  refine ⟨?_, ?_, by norm_num [handleCalibrateThreshold, THRESHOLD_OFFSET]⟩
  · rw [handleCalibrateThreshold, if_pos (List.length_pos.2 hdata)]
    rw [THRESHOLD_OFFSET]
  · rw [handleCalibrateThreshold, if_pos (by simpa using hn)]
    rw [List.sum_replicate, List.length_replicate, THRESHOLD_OFFSET]
    have hn' : (n:ℚ) ≠ 0 := by exact_mod_cast hn.ne'
    rw [nsmul_eq_mul]
    field_simp

/-- Claim C1 witness: the calibration threshold at the concrete buffer
[2], at a constant buffer of four samples of value 3, and at the empty
buffer. -/
theorem calibration_threshold_spec_witness :
    handleCalibrateThreshold [2] = ([2] : List ℚ).sum / ([2] : List ℚ).length + 1/10 ∧
    handleCalibrateThreshold (List.replicate 4 3) = 3 + 1/10 ∧
    handleCalibrateThreshold [] = 7/20 :=
  calibration_threshold_spec [2] 3 4 (by simp) (by norm_num)

/-- Claim C1 counterexample: calibration with an empty sample buffer
yields 7/20 = 0.35, not the documented default threshold 0.25. -/
theorem calibration_empty_default_cex :
    handleCalibrateThreshold [] = 7/20 ∧ (7/20 : ℚ) ≠ 1/4 := by
  constructor
  · norm_num [handleCalibrateThreshold, THRESHOLD_OFFSET]
  · norm_num

/-- Claim C2 (amended): with zero valid detection frames in a run every
aggregated metric is null, the average peak is the well-defined value 0
(the JavaScript NaN of the empty division is coerced to 0 by the || 0
guard), and the classification is abnormal for every positive
calibration threshold regardless of the forced-fail flag, because the
zero average peak is below threshold times DEPRESSION_MULTIPLIER. -/
theorem zero_frames_run_spec (t : ℚ) (ff : Bool) (ht : 0 < t) :
    fixationStabilityOf [] = none ∧ pupilVariabilityOf [] = none ∧
    prosaccadeLatencyOf [] = none ∧ saccadeAccuracyOf (List.replicate 10 none) = none ∧
    smoothPursuitGainOf (List.replicate 10 none) [] = none ∧
    avgPeakOf [] = 0 ∧
    isDepressed (avgPeakOf []) t ff = true := by
  refine ⟨rfl, rfl, rfl, by decide, by decide, rfl, ?_⟩
  have h0 : avgPeakOf [] = 0 := rfl
  rw [h0, isDepressed, Bool.or_eq_true, decide_eq_true_eq]
  left
  rw [DEPRESSION_MULTIPLIER]
  linarith

/-- Claim C2 witness: the zero-frame run evaluated at the concrete
post-calibration threshold 7/20 with the forced-fail flag unset. -/
theorem zero_frames_run_spec_witness :
    fixationStabilityOf [] = none ∧ pupilVariabilityOf [] = none ∧
    prosaccadeLatencyOf [] = none ∧ saccadeAccuracyOf (List.replicate 10 none) = none ∧
    smoothPursuitGainOf (List.replicate 10 none) [] = none ∧
    avgPeakOf [] = 0 ∧
    isDepressed (avgPeakOf []) (7/20) false = true :=
  zero_frames_run_spec (7/20) false (by norm_num)

/-- Claim C2 counterexample: with zero valid frames and the forced-fail
flag unset, the classification is ABNORMAL, not the NORMAL the claim
asserts, at the threshold produced by an empty calibration. -/
theorem zero_frames_classification_cex :
    classificationOf (avgPeakOf []) (handleCalibrateThreshold []) false = "ABNORMAL" := by
  norm_num [classificationOf, isDepressed, avgPeakOf, handleCalibrateThreshold,
    THRESHOLD_OFFSET, DEPRESSION_MULTIPLIER]

/-- Claim C3 (amended): at test end the pupil variability equals the
sample variance of the iris-width history times 1000 rounded to three
decimals, a non-negative number, whenever at least two samples were
collected; it is 0 (not null) for exactly one sample and null only for
zero samples. -/
theorem pupil_variability_spec (irisHist : List ℚ) (x : ℚ) (h2 : 2 ≤ irisHist.length) :
    pupilVariabilityOf irisHist = some (round3 (variance irisHist * 1000)) ∧
    0 ≤ round3 (variance irisHist * 1000) ∧
    pupilVariabilityOf [x] = some 0 ∧
    pupilVariabilityOf [] = none := by
  refine ⟨?_, round3_nonneg _ (mul_nonneg (variance_nonneg _) (by norm_num)), rfl, rfl⟩
  rw [pupilVariabilityOf, if_pos h2]

/-- Claim C3 witness: pupil variability evaluated on the concrete
two-sample history [1/10, 3/10] and the one- and zero-sample cases. -/
theorem pupil_variability_spec_witness :
    pupilVariabilityOf [1/10, 3/10] = some (round3 (variance [1/10, 3/10] * 1000)) ∧
    0 ≤ round3 (variance [1/10, 3/10] * 1000) ∧
    pupilVariabilityOf [(1:ℚ)/2] = some 0 ∧
    pupilVariabilityOf [] = none :=
  pupil_variability_spec [1/10, 3/10] (1/2) (by simp)

/-- Claim C3 counterexample: with exactly one iris-width sample the
stored pupil variability is 0, not the null the claim requires for
fewer than two samples. -/
theorem pupil_variability_single_sample_cex :
    pupilVariabilityOf [1/10] = some 0 ∧ pupilVariabilityOf [1/10] ≠ none := by
  constructor
  · rfl
  · simp [pupilVariabilityOf]

/-- Claim C4 (amended): the gaze extractor returns the neutral vector
for lists shorter than 134 points; for lists of 134 to 159 points it
raises a TypeError (modelled as none) by dereferencing the undefined
eye-top or eye-bottom landmark; for lists of at least 160 points it
never raises, returning the neutral vector whenever the iris points
are absent (at most 473 points) or some iris x coordinate is outside
(0,1) — iris y coordinates are never validated; and the eye-width
divisor is nonzero on every input because an exactly-zero width is
replaced by 0.01. -/
theorem gaze_extractor_spec (l : List Landmark) (a b : ℚ) :
    (l.length < 134 → getGazePositionFromLandmarks l = some ⟨0, 0⟩) ∧
    (134 ≤ l.length → l.length ≤ 159 → getGazePositionFromLandmarks l = none) ∧
    (160 ≤ l.length → (getGazePositionFromLandmarks l).isSome = true) ∧
    (160 ≤ l.length → l.length ≤ 473 → getGazePositionFromLandmarks l = some ⟨0, 0⟩) ∧
    (∀ it ib il ir, 474 ≤ l.length →
      l[LEFT_IRIS_TOP]? = some it → l[LEFT_IRIS_BOTTOM]? = some ib →
      l[LEFT_IRIS_LEFT]? = some il → l[LEFT_IRIS_RIGHT]? = some ir →
      ¬ irisXInRange it ib il ir → getGazePositionFromLandmarks l = some ⟨0, 0⟩) ∧
    eyeWidthOf a b ≠ 0 := by
  refine ⟨?_, ?_, ?_, ?_, ?_, ?_⟩
  · intro h
    rw [getGazePositionFromLandmarks, if_pos h]
  · intro h1 h2
    rw [getGazePositionFromLandmarks, if_neg (by omega)]
    rw [List.getElem?_eq_none (by simp only [LEFT_EYE_TOP]; omega)]
  · intro h
    rw [getGaze_reduce l (l.get ⟨159, by omega⟩) (l.get ⟨145, by omega⟩) (by omega)
      (by simp only [LEFT_EYE_TOP]; exact List.getElem?_eq_getElem (by omega))
      (by simp only [LEFT_EYE_BOTTOM]; exact List.getElem?_eq_getElem (by omega))]
    split
    · dsimp only
      split <;> rfl
    · rfl
  · intro h1 h2
    rw [getGaze_reduce l (l.get ⟨159, by omega⟩) (l.get ⟨145, by omega⟩) (by omega)
      (by simp only [LEFT_EYE_TOP]; exact List.getElem?_eq_getElem (by omega))
      (by simp only [LEFT_EYE_BOTTOM]; exact List.getElem?_eq_getElem (by omega))]
    dsimp only
    rw [if_neg (by omega)]
  · intro it ib il ir hlen hit hib hil hir hbad
    rw [getGaze_reduce l (l.get ⟨159, by omega⟩) (l.get ⟨145, by omega⟩) (by omega)
      (by simp only [LEFT_EYE_TOP]; exact List.getElem?_eq_getElem (by omega))
      (by simp only [LEFT_EYE_BOTTOM]; exact List.getElem?_eq_getElem (by omega))]
    dsimp only
    rw [if_pos (by omega), hit, hib, hil, hir]
    simp only [Option.getD_some]
    rw [if_neg hbad]
  · unfold eyeWidthOf
    split
    · norm_num
    · next h => exact h

/-- Claim C4 witness: the neutral vector on the empty landmark list and
on a 200-point list without iris landmarks, and a nonzero eye width at
the concrete corner pair (0, 1). -/
theorem gaze_extractor_spec_witness :
    getGazePositionFromLandmarks [] = some ⟨0, 0⟩ ∧
    getGazePositionFromLandmarks (List.replicate 200 ⟨1/2, 1/2⟩) = some ⟨0, 0⟩ ∧
    eyeWidthOf 0 1 ≠ 0 :=
  ⟨(gaze_extractor_spec [] 0 1).1 (by norm_num),
   (gaze_extractor_spec (List.replicate 200 ⟨1/2, 1/2⟩) 0 1).2.2.2.1 (by simp) (by simp),
   (gaze_extractor_spec [] 0 1).2.2.2.2.2⟩

/-- Claim C4 counterexample: a 140-point landmark list (iris landmarks
missing) makes the extractor raise instead of returning the neutral
vector, and a 474-point list whose iris points have y = 5 outside
(0,1) but x inside returns the non-neutral vector (-25, 450), so the
claimed neutral-vector guarantee fails on both kinds of malformed
input. -/
theorem gaze_extractor_cex :
    getGazePositionFromLandmarks (List.replicate 140 ⟨1/2, 1/2⟩) = none ∧
    getGazePositionFromLandmarks badIrisList = some ⟨-25, 450⟩ ∧
    (⟨-25, 450⟩ : GazeVec) ≠ ⟨0, 0⟩ := by
  refine ⟨?_, ?_, by decide⟩
  · simp only [getGazePositionFromLandmarks, List.length_replicate, List.getElem?_replicate,
      LEFT_EYE_TOP, LEFT_EYE_BOTTOM]
    norm_num
  · have hlen : badIrisList.length = 474 := by simp [badIrisList]
    have h33 : badIrisList[33]? = some ⟨1/2, 1/2⟩ := by
      rw [badIrisList, List.getElem?_append]
      norm_num [List.getElem?_replicate]
    have h133 : badIrisList[133]? = some ⟨1/2, 1/2⟩ := by
      rw [badIrisList, List.getElem?_append]
      norm_num [List.getElem?_replicate]
    have h159 : badIrisList[159]? = some ⟨1/2, 1/2⟩ := by
      rw [badIrisList, List.getElem?_append]
      norm_num [List.getElem?_replicate]
    have h145 : badIrisList[145]? = some ⟨1/2, 1/2⟩ := by
      rw [badIrisList, List.getElem?_append]
      norm_num [List.getElem?_replicate]
    have h468 : badIrisList[468]? = some ⟨1/4, 5⟩ := by
      rw [badIrisList, List.getElem?_append]
      norm_num [List.getElem?_replicate]
    have h469 : badIrisList[469]? = some ⟨1/4, 5⟩ := by
      rw [badIrisList, List.getElem?_append]
      norm_num [List.getElem?_replicate]
    have h470 : badIrisList[470]? = some ⟨1/4, 5⟩ := by
      rw [badIrisList, List.getElem?_append]
      norm_num [List.getElem?_replicate]
    have h471 : badIrisList[471]? = some ⟨1/4, 5⟩ := by
      rw [badIrisList, List.getElem?_append]
      norm_num [List.getElem?_replicate]
    rw [getGazePositionFromLandmarks, hlen]
    rw [show (LEFT_EYE_TOP : ℕ) = 159 from rfl, show (LEFT_EYE_BOTTOM : ℕ) = 145 from rfl,
      show (LEFT_EYE_INNER : ℕ) = 33 from rfl, show (LEFT_EYE_OUTER : ℕ) = 133 from rfl,
      show (LEFT_IRIS_TOP : ℕ) = 468 from rfl, show (LEFT_IRIS_BOTTOM : ℕ) = 471 from rfl,
      show (LEFT_IRIS_LEFT : ℕ) = 469 from rfl, show (LEFT_IRIS_RIGHT : ℕ) = 470 from rfl]
    rw [h159, h145, h33, h133, h468, h469, h470, h471]
    norm_num [irisXInRange, eyeWidthOf]

/-- Claim C5: for positive container dimensions the deviation score
equals the Euclidean distance between the amplified gaze (8 times each
component) and the mirror-corrected centered dot direction, and is
therefore non-negative. -/
theorem gaze_deviation_euclidean_spec (g p : ℝ × ℝ) (w h : ℝ) (hw : 0 < w) (hh : 0 < h) :
    calculateGazeDeviation g p w h = dist (specAmplifiedGaze g) (specCorrectedDir p w h) ∧
    0 ≤ calculateGazeDeviation g p w h := by
  constructor
  · rw [calculateGazeDeviation, specAmplifiedGaze, specCorrectedDir, EuclideanSpace.dist_eq]
    dsimp only
    congr 1
    rw [Fin.sum_univ_two]
    simp only [Matrix.cons_val_zero, Matrix.cons_val_one, Matrix.head_cons, Real.dist_eq,
      sq_abs, IRIS_SCALE]
    ring
  · exact Real.sqrt_nonneg _

/-- Claim C5 witness: the deviation score at concrete gaze (1/4, 0),
dot (10, 20) and container 40 by 40. -/
theorem gaze_deviation_euclidean_spec_witness :
    calculateGazeDeviation ((1/4 : ℝ), 0) (10, 20) 40 40 =
      dist (specAmplifiedGaze ((1/4 : ℝ), 0)) (specCorrectedDir (10, 20) 40 40) ∧
    0 ≤ calculateGazeDeviation ((1/4 : ℝ), 0) (10, 20) 40 40 :=
  gaze_deviation_euclidean_spec ((1/4 : ℝ), 0) (10, 20) 40 40 (by norm_num) (by norm_num)

/-- Claim C6: the deviation score is invariant under negating the gaze
x component while reflecting the dot horizontally in the container. -/
theorem gaze_deviation_mirror_spec (gx gy px py w h : ℝ) (hw : 0 < w) (hh : 0 < h) :
    calculateGazeDeviation (-gx, gy) (w - px, py) w h =
      calculateGazeDeviation (gx, gy) (px, py) w h := by
  rw [calculateGazeDeviation, calculateGazeDeviation]
  dsimp only
  congr 1
  have hw' : w ≠ 0 := hw.ne'
  field_simp
  ring

/-- Claim C6 witness: the mirror symmetry at concrete gaze (1/20, 1/10),
dot (30, 15) and container 60 by 30. -/
theorem gaze_deviation_mirror_spec_witness :
    calculateGazeDeviation (-(1/20 : ℝ), 1/10) (60 - 30, 15) 60 30 =
      calculateGazeDeviation ((1/20 : ℝ), 1/10) (30, 15) 60 30 :=
  gaze_deviation_mirror_spec (1/20) (1/10) 30 15 60 30 (by norm_num) (by norm_num)

/-- Claim C7 (amended): at fixation-phase exit with at least five
buffered samples the stored stability is the three-decimal-rounded
value of max(0, 1 - (stdX + stdY) * 8), which lies in [0, 1]; it is
exactly 1 for a zero-variance buffer, never increases as the total
standard deviation grows, is 0 for one to four samples, and is null
for zero samples. -/
theorem fixation_stability_spec (fix : List (ℝ × ℝ)) (c : ℝ × ℝ) (n : ℕ) (s1 s2 : ℝ)
    (hn : 5 ≤ n) (hs : s1 ≤ s2) :
    (5 ≤ fix.length → ∃ y, fixationStabilityOf fix = some y ∧
      y = stabilityScore (Real.sqrt (varianceR (fix.map Prod.fst)) +
        Real.sqrt (varianceR (fix.map Prod.snd))) ∧ 0 ≤ y ∧ y ≤ 1) ∧
    fixationStabilityOf (List.replicate n c) = some 1 ∧
    stabilityScore s2 ≤ stabilityScore s1 ∧
    (0 < fix.length → fix.length < 5 → fixationStabilityOf fix = some 0) ∧
    fixationStabilityOf [] = none := by
  refine ⟨?_, fixationStability_replicate n c hn, stabilityScore_antitone s1 s2 hs, ?_, rfl⟩
  · intro h5
    rw [fixationStabilityOf, if_pos h5]
    refine ⟨_, rfl, rfl, ?_, ?_⟩
    · exact (stabilityScore_bounds _ (add_nonneg (Real.sqrt_nonneg _) (Real.sqrt_nonneg _))).1
    · exact (stabilityScore_bounds _ (add_nonneg (Real.sqrt_nonneg _) (Real.sqrt_nonneg _))).2
  · intro hpos hlt
    rw [fixationStabilityOf, if_neg (by omega), if_pos hpos]

/-- Claim C7 witness: the fixation stability on five identical samples,
the score monotonicity at 0 and 1, the one-sample and empty cases. -/
theorem fixation_stability_spec_witness :
    (∃ y, fixationStabilityOf (List.replicate 5 ((0:ℝ), (0:ℝ))) = some y ∧
      y = stabilityScore (Real.sqrt (varianceR ((List.replicate 5 ((0:ℝ), (0:ℝ))).map Prod.fst)) +
        Real.sqrt (varianceR ((List.replicate 5 ((0:ℝ), (0:ℝ))).map Prod.snd))) ∧
      0 ≤ y ∧ y ≤ 1) ∧
    fixationStabilityOf (List.replicate 5 ((0:ℝ), (0:ℝ))) = some 1 ∧
    stabilityScore 1 ≤ stabilityScore 0 ∧
    fixationStabilityOf [((0:ℝ), (0:ℝ))] = some 0 ∧
    fixationStabilityOf [] = none :=
  ⟨(fixation_stability_spec (List.replicate 5 ((0:ℝ), (0:ℝ))) ((0:ℝ), (0:ℝ)) 5 0 1
      (by norm_num) (by norm_num)).1 (by simp),
   (fixation_stability_spec (List.replicate 5 ((0:ℝ), (0:ℝ))) ((0:ℝ), (0:ℝ)) 5 0 1
      (by norm_num) (by norm_num)).2.1,
   (fixation_stability_spec (List.replicate 5 ((0:ℝ), (0:ℝ))) ((0:ℝ), (0:ℝ)) 5 0 1
      (by norm_num) (by norm_num)).2.2.1,
   (fixation_stability_spec [((0:ℝ), (0:ℝ))] ((0:ℝ), (0:ℝ)) 5 0 1
      (by norm_num) (by norm_num)).2.2.2.1 (by simp) (by simp),
   (fixation_stability_spec [] ((0:ℝ), (0:ℝ)) 5 0 1 (by norm_num) (by norm_num)).2.2.2.2⟩

/-- Variance of the x coordinates of the concrete fixation buffer used
as the rounding counterexample. -/
theorem fixCex_varX : varianceR (fixCexList.map Prod.fst) = (1/16000)^2 := by
  norm_num [fixCexList, varianceR]

/-- Variance of the y coordinates of the concrete fixation buffer used
as the rounding counterexample. -/
theorem fixCex_varY : varianceR (fixCexList.map Prod.snd) = 0 := by
  have : fixCexList.map Prod.snd = List.replicate 5 0 := by
    norm_num [fixCexList, List.replicate]
  rw [this, varianceR_replicate]

/-- Claim C7 counterexample: a concrete five-sample buffer whose
unrounded score is 1999/2000 = 0.9995 but whose stored fixation
stability is the rounded value 1, so the stored metric does not equal
max(0, 1 - (stdX + stdY) * scale) exactly. -/
theorem fixation_stability_rounding_cex :
    fixationStabilityOf fixCexList = some 1 ∧
    max 0 (1 - (Real.sqrt (varianceR (fixCexList.map Prod.fst)) +
      Real.sqrt (varianceR (fixCexList.map Prod.snd))) * STABILITY_STD_SCALE) = 1999/2000 ∧
    (1 : ℝ) ≠ 1999/2000 := by
  have hs : Real.sqrt (varianceR (fixCexList.map Prod.fst)) = 1/16000 := by
    rw [fixCex_varX, Real.sqrt_sq (by norm_num)]
  have hmax : max 0 (1 - (Real.sqrt (varianceR (fixCexList.map Prod.fst)) +
      Real.sqrt (varianceR (fixCexList.map Prod.snd))) * STABILITY_STD_SCALE) = 1999/2000 := by
    rw [hs, fixCex_varY, Real.sqrt_zero, STABILITY_STD_SCALE]
    rw [max_eq_right (by norm_num)]
    norm_num
  refine ⟨?_, hmax, by norm_num⟩
  rw [fixationStabilityOf, if_pos (by norm_num [fixCexList])]
  unfold stabilityScore
  dsimp only
  rw [hmax]
  unfold round3R
  norm_num [round_eq]

/-- Claim C8 (amended): within a saccade trial with a positive jump
time and a recorded baseline, the latency is latched by the first
detection tick whose absolute shift from the baseline exceeds the
shift threshold with at least 80 ms elapsed since the jump, and later
qualifying ticks never overwrite it; trials that never latched
contribute no value to the latency list; the reported prosaccade
latency is null when no trial latched and otherwise equals the mean of
the latched latencies rounded to one decimal. -/
theorem prosaccade_latency_spec (trial : SaccadeTrial) (b : ℚ) (trials : List SaccadeTrial)
    (ls : List ℚ) (hjt : 0 < trial.jumpTime) (hb : trial.preJumpBaseline = some b)
    (hls : ls ≠ []) :
    trialLatency trial =
      (trial.ticks.find? fun tk => decide (LATENCY_MIN_MS ≤ tk.t - trial.jumpTime) &&
        decide (LATENCY_SHIFT_THRESHOLD < |tk.x - b|)).map (fun tk => tk.t - trial.jumpTime) ∧
    latchedLatencies trials = trials.filterMap trialLatency ∧
    prosaccadeLatencyOf (latchedLatencies []) = none ∧
    prosaccadeLatencyOf ls = some (round1 (ls.sum / ls.length)) := by
  refine ⟨?_, rfl, rfl, ?_⟩
  · rw [trialLatency, hb]
    exact trialLatency_eq_find trial.jumpTime b trial.ticks hjt
  · rw [prosaccadeLatencyOf, if_pos (List.length_pos.2 hls)]

/-- Claim C8 witness: the latch characterization on a concrete trial
with jump time 1, baseline 0 and no ticks, and the rounded mean on the
concrete latency list [100]. -/
theorem prosaccade_latency_spec_witness :
    trialLatency ⟨1, some 0, []⟩ =
      (([] : List GazeTick).find? fun tk => decide (LATENCY_MIN_MS ≤ tk.t - (1:ℚ)) &&
        decide (LATENCY_SHIFT_THRESHOLD < |tk.x - 0|)).map (fun tk => tk.t - (1:ℚ)) ∧
    latchedLatencies [] = List.filterMap trialLatency [] ∧
    prosaccadeLatencyOf (latchedLatencies []) = none ∧
    prosaccadeLatencyOf [100] = some (round1 (([100] : List ℚ).sum / ([100] : List ℚ).length)) :=
  prosaccade_latency_spec ⟨1, some 0, []⟩ 0 [] [100] (by norm_num) rfl (by simp)

/-- Claim C8 counterexample: three concrete trials latch the latencies
100, 100 and 101, whose true mean is 301/3 = 100.333..., but the
reported prosaccade latency is the rounded value 100.3, so the metric
does not equal the mean exactly. -/
theorem prosaccade_latency_rounding_cex :
    latchedLatencies [⟨1000, some 0, [⟨1, 1100⟩]⟩, ⟨1000, some 0, [⟨1, 1100⟩]⟩,
        ⟨1000, some 0, [⟨1, 1101⟩]⟩] = [100, 100, 101] ∧
    prosaccadeLatencyOf [100, 100, 101] = some (1003/10) ∧
    (1003/10 : ℚ) ≠ (100 + 100 + 101) / 3 := by
  refine ⟨?_, ?_, by norm_num⟩
  · norm_num [latchedLatencies, List.filterMap, trialLatency, latencyStep,
      LATENCY_MIN_MS, LATENCY_SHIFT_THRESHOLD]
  · norm_num [prosaccadeLatencyOf, round1, round_eq]

/-- Claim C10: detectFace is total and fail-soft — it returns null when
the video is not ready, the dot position is null, a video dimension is
zero, a container dimension is non-positive, the detector throws, or
no face is returned; and it returns a non-null result only when the
inputs are valid and a face was detected. -/
theorem detect_face_spec (rs vw vh : ℕ) (dot : Option (ℚ × ℚ)) (cw ch : ℚ)
    (oc : DetectorOutcome) (ts : ℚ) :
    ((rs < 2 ∨ dot = none ∨ vw = 0 ∨ vh = 0 ∨ cw ≤ 0 ∨ ch ≤ 0 ∨ oc = .throws ∨ oc = .ok []) →
      detectFace rs vw vh dot cw ch oc ts = none) ∧
    (∀ r, detectFace rs vw vh dot cw ch oc ts = some r →
      2 ≤ rs ∧ vw ≠ 0 ∧ vh ≠ 0 ∧ 0 < cw ∧ 0 < ch ∧
      ∃ d faces face rest, dot = some d ∧ oc = .ok faces ∧ faces = face :: rest) := by
  constructor
  · intro h
    rcases h with h | h | h | h | h | h | h | h <;>
      simp [detectFace, h]
  · intro r hr
    rw [detectFace.eq_def] at hr
    split at hr
    · exact absurd hr (by simp)
    · split at hr
      · exact absurd hr (by simp)
      · split at hr
        · exact absurd hr (by simp)
        · next h1 h2 h3 =>
          push_neg at h1 h2 h3
          refine ⟨by omega, h2.1, h2.2, h3.1, h3.2, ?_⟩
          cases oc with
          | throws => exact absurd hr (by simp)
          | ok faces =>
            cases faces with
            | nil => exact absurd hr (by simp)
            | cons face rest =>
              cases hdot : dot with
              | none => exact absurd hdot h1.2
              | some d =>
                rw [hdot] at hr
                exact ⟨d, face :: rest, face, rest, rfl, rfl, rfl⟩

/-- Claim C10 witness: detectFace returns null at the concrete
not-ready call (readyState 0) and on a thrown detector call with
otherwise valid inputs. -/
theorem detect_face_spec_witness :
    detectFace 0 640 480 (some (1, 1)) 100 100 (.ok [[]]) 0 = none ∧
    detectFace 2 640 480 (some (1, 1)) 100 100 .throws 0 = none :=
  ⟨(detect_face_spec 0 640 480 (some (1, 1)) 100 100 (.ok [[]]) 0).1 (by norm_num),
   (detect_face_spec 2 640 480 (some (1, 1)) 100 100 .throws 0).1
     (by norm_num)⟩
